import Mathlib

/-!
Verification of the employee-management server (`server/server.js` and
`server/config/database.js`): the JWT auth gate, the login handler with its
rate limiter, and the employee CRUD handlers with duplicate-email conflict
handling, shallowly embedded in Lean.
-/

/-! ## String utilities (models of the JavaScript / MySQL primitives) -/

/-- Lowercasing of one character, ASCII range.  Models the case mapping used
both by validator.js `normalizeEmail` and by the MySQL case-insensitive
collation on the `email` column (the emails involved are ASCII). -/
def lowChar (c : Char) : Char :=
  if 65 ≤ c.toNat ∧ c.toNat ≤ 90 then Char.ofNat (c.toNat + 32) else c

/-- Lowercase an entire string. -/
def lowStr (s : String) : String := String.mk (s.data.map lowChar)

/-- Characters removed by JavaScript `String.prototype.trim`. -/
def trimChars (l : List Char) : List Char :=
  ((l.dropWhile Char.isWhitespace).reverse.dropWhile Char.isWhitespace).reverse

/-- Model of JavaScript `String.prototype.trim`, applied by the
express-validator `.trim()` sanitizer. -/
def trimStr (s : String) : String := String.mk (trimChars s.data)

/-- Model of JavaScript `String.prototype.split` with a one-character
separator: `splitCharsOn sep l` splits `l` at every occurrence of `sep`,
keeping empty segments, and returns `[[]]` on the empty input, exactly as
`"".split(sep)` returns `[""]`. -/
def splitCharsOn (sep : Char) : List Char → List (List Char)
  | [] => [[]]
  | c :: rest =>
    match splitCharsOn sep rest with
    | [] => [[c]]
    | h :: t => if c = sep then [] :: h :: t else (c :: h) :: t

/-! ## Field validation (`employeeValidation` in `server.js`) -/

/-- Modelled from the spec: the server delegates email syntax checking to the
external validator.js `isEmail` (not part of this repository); the spec
requires "valid email syntax", and the repository's own client-side check
(`EmployeeForm.tsx`) is the anchored pattern of one or more
non-space-non-at characters, an at sign, more such characters, a dot, and
more such characters.  This definition decides that pattern. -/
def isEmailStr (s : String) : Bool :=
  match splitCharsOn '@' s.data with
  | [loc, dom] =>
    !loc.isEmpty && loc.all (fun c => !c.isWhitespace) &&
    dom.all (fun c => !c.isWhitespace) &&
    ((dom.drop 1).dropLast.contains '.')
  | _ => false

/-- Numeric value of a digit list (used by the date check). -/
def digitsVal (l : List Char) : Nat :=
  l.foldl (fun acc c => acc * 10 + (c.toNat - 48)) 0

/-- Modelled from the spec: the server delegates the hire-date check to the
external validator.js `isDate` (not part of this repository); the spec
requires a "valid calendar date".  Modelled as `YYYY-MM-DD` with month in
1..12 and day in 1..31. -/
def isDateStr (s : String) : Bool :=
  match splitCharsOn '-' s.data with
  | [y, m, d] =>
    y.length == 4 && y.all Char.isDigit &&
    m.length == 2 && m.all Char.isDigit &&
    d.length == 2 && d.all Char.isDigit &&
    1 ≤ digitsVal m && digitsVal m ≤ 12 &&
    1 ≤ digitsVal d && digitsVal d ≤ 31
  | _ => false

/-- A character of the lenient phone pattern: digit, whitespace, dash, plus
sign or parenthesis (the character class of the repository's client-side
check in `EmployeeForm.tsx`). -/
def phoneCharOk (c : Char) : Bool :=
  c.isDigit || c.isWhitespace || c = '-' || c = '+' || c = '(' || c = ')'

/-- Modelled from the spec: the server delegates the phone check to the
external express-validator `isMobilePhone` (not part of this repository); the
spec describes the repository's phone validation as "the lenient
numeric/punctuation pattern (any digits/spaces/dashes/parens/plus)", which is
exactly the repository's own client-side check in `EmployeeForm.tsx`: a
nonempty string all of whose characters lie in that class. -/
def phoneOk (s : String) : Bool :=
  !s.data.isEmpty && s.data.all phoneCharOk

/-- A create/update request body, after JSON parsing and before the
express-validator sanitizers run. -/
structure EmployeePayload where
  first_name : String
  last_name : String
  email : String
  position : String
  department : String
  salary : Int
  hire_date : String
  phone : Option String
  address : Option String
deriving Repr, DecidableEq

/-- The shared validation pass `employeeValidation` of `server.js`, as read
back by `validationResult`: the list of violation messages, collected in
chain order (empty list means the request is accepted).  Length checks apply
to the trimmed value because `.trim()` precedes `.isLength(...)` in each
chain; the email is checked before `normalizeEmail` rewrites it. -/
def validateEmployee (p : EmployeePayload) : List String :=
  (if 1 ≤ (trimStr p.first_name).length ∧ (trimStr p.first_name).length ≤ 50 then []
   else ["First name is required and must be less than 50 characters"]) ++
  (if 1 ≤ (trimStr p.last_name).length ∧ (trimStr p.last_name).length ≤ 50 then []
   else ["Last name is required and must be less than 50 characters"]) ++
  (if isEmailStr p.email then [] else ["Valid email is required"]) ++
  (if 1 ≤ (trimStr p.position).length ∧ (trimStr p.position).length ≤ 100 then []
   else ["Position is required and must be less than 100 characters"]) ++
  (if 1 ≤ (trimStr p.department).length ∧ (trimStr p.department).length ≤ 100 then []
   else ["Department is required and must be less than 100 characters"]) ++
  (if 0 ≤ p.salary then [] else ["Salary must be a positive number"]) ++
  (if isDateStr p.hire_date then [] else ["Valid hire date is required"]) ++
  (match p.phone with
   | none => []
   | some s => if phoneOk s then [] else ["Valid phone number required"]) ++
  (match p.address with
   | none => []
   | some s => if s.length ≤ 200 then [] else ["Address must be less than 200 characters"])

/-- The express-validator sanitizers as they rewrite `req.body` before the
route handler reads it: `.trim()` on the four name-like fields and
`normalizeEmail` (which, with its default options, lowercases the address)
on the email. -/
def sanitizePayload (p : EmployeePayload) : EmployeePayload :=
  { p with
    first_name := trimStr p.first_name
    last_name := trimStr p.last_name
    email := lowStr p.email
    position := trimStr p.position
    department := trimStr p.department }

/-! ## Storage layer (`employees` table, `config/database.js`) -/

/-- A row of the `employees` table.  `created_at` is set by the column
default at insert; `updated_at` is refreshed by `ON UPDATE CURRENT_TIMESTAMP`.
Times are modelled as natural numbers. -/
structure Employee where
  id : Nat
  first_name : String
  last_name : String
  email : String
  position : String
  department : String
  salary : Int
  hire_date : String
  phone : Option String
  address : Option String
  created_at : Nat
  updated_at : Nat
deriving Repr, DecidableEq

/-- The employee collection plus the `AUTO_INCREMENT` counter of the
primary key. -/
structure DbState where
  employees : List Employee
  nextId : Nat
deriving Repr, DecidableEq

/-- The freshly initialized database: no rows, `AUTO_INCREMENT` at 1. -/
def dbInit : DbState := { employees := [], nextId := 1 }

/-- An error raised by the mysql2 driver; `code` carries the MySQL error
code, `ER_DUP_ENTRY` for a duplicate-key rejection. -/
structure DbError where
  code : String
deriving Repr, DecidableEq

/-- MySQL string equality on the `email` column: the default collation is
case-insensitive, so both `WHERE email = ?` and the `UNIQUE` index compare
emails after case folding. -/
def emailEq (a b : String) : Bool := lowStr a == lowStr b

/-- The pre-check query `SELECT * FROM employees WHERE email = ?` has a
result: some stored row's email matches the candidate. -/
def emailTaken (db : List Employee) (email : String) : Bool :=
  db.any (fun e => emailEq e.email email)

/-- The pre-check query `SELECT * FROM employees WHERE email = ? AND id != ?`
has a result: some OTHER stored row (different id) holds the candidate
email. -/
def emailTakenByOther (db : List Employee) (email : String) (id : Nat) : Bool :=
  db.any (fun e => emailEq e.email email && e.id != id)

/-- `SELECT * FROM employees WHERE id = ?`, first row. -/
def findEmp (db : List Employee) (id : Nat) : Option Employee :=
  db.find? (fun e => e.id == id)

/-- The row built by the `INSERT` statement: payload fields plus the
assigned id; both timestamp columns take their defaults (the current time). -/
def mkEmployee (id now : Nat) (q : EmployeePayload) : Employee :=
  { id := id
    first_name := q.first_name
    last_name := q.last_name
    email := q.email
    position := q.position
    department := q.department
    salary := q.salary
    hire_date := q.hire_date
    phone := q.phone
    address := q.address
    created_at := now
    updated_at := now }

/-- The `INSERT INTO employees ...` statement as executed by MySQL: the
`UNIQUE` index on `email` rejects the write with `ER_DUP_ENTRY` when any
existing row holds a case-insensitively equal email; otherwise the row is
appended with the next `AUTO_INCREMENT` id, which is returned as
`insertId`. -/
def dbInsert (st : DbState) (now : Nat) (q : EmployeePayload) :
    Except DbError (DbState × Nat) :=
  if emailTaken st.employees q.email then .error { code := "ER_DUP_ENTRY" }
  else
    .ok ({ employees := st.employees ++ [mkEmployee st.nextId now q]
           nextId := st.nextId + 1 },
         st.nextId)

/-- One row after `UPDATE employees SET ... WHERE id = ?`: every mutable
field is overwritten from the payload, `created_at` is untouched, and
`updated_at` is refreshed by the `ON UPDATE CURRENT_TIMESTAMP` column
default. -/
def overwriteRow (now : Nat) (q : EmployeePayload) (e : Employee) : Employee :=
  { e with
    first_name := q.first_name
    last_name := q.last_name
    email := q.email
    position := q.position
    department := q.department
    salary := q.salary
    hire_date := q.hire_date
    phone := q.phone
    address := q.address
    updated_at := now }

/-- The `UPDATE employees ... WHERE id = ?` statement as executed by MySQL:
the `UNIQUE` index on `email` rejects the write with `ER_DUP_ENTRY` when a
row with a different id holds a case-insensitively equal email; otherwise
the row with the given id is overwritten. -/
def dbUpdate (st : DbState) (now : Nat) (id : Nat) (q : EmployeePayload) :
    Except DbError DbState :=
  if emailTakenByOther st.employees q.email id then .error { code := "ER_DUP_ENTRY" }
  else
    .ok { st with
          employees := st.employees.map fun e =>
            if e.id == id then overwriteRow now q e else e }

/-! ## Employee route handlers (`server.js`) -/

/-- The create response: `{ id: result.insertId, ...req.body }`.  The spread
copies exactly the payload keys next to the assigned id; the timestamp
columns are NOT part of the response object, modelled by two `Option`
fields that the handler leaves at `none`. -/
structure CreatedEmployee where
  id : Nat
  first_name : String
  last_name : String
  email : String
  position : String
  department : String
  salary : Int
  hire_date : String
  phone : Option String
  address : Option String
  created_at : Option Nat
  updated_at : Option Nat
deriving Repr, DecidableEq

/-- The response object of a successful create. -/
def mkCreated (id : Nat) (q : EmployeePayload) : CreatedEmployee :=
  { id := id
    first_name := q.first_name
    last_name := q.last_name
    email := q.email
    position := q.position
    department := q.department
    salary := q.salary
    hire_date := q.hire_date
    phone := q.phone
    address := q.address
    created_at := none
    updated_at := none }

/-- Outcome of `POST /api/employees` (after the auth gate):
status 400, 409, 201 or 500 with the response body. -/
inductive CreateResult where
  | validationFailed (details : List String)
  | conflict (msg : String)
  | created (employee : CreatedEmployee)
  | internalFailure (msg : String)
deriving Repr, DecidableEq

/-- Outcome of `PUT /api/employees/:id` (after the auth gate):
status 400, 404, 409, 200 or 500 with the response body. -/
inductive UpdateResult where
  | validationFailed (details : List String)
  | notFound (msg : String)
  | conflict (msg : String)
  | updated (msg : String)
  | internalFailure (msg : String)
deriving Repr, DecidableEq

/-- Outcome of `DELETE /api/employees/:id` (after the auth gate). -/
inductive DeleteResult where
  | notFound (msg : String)
  | deleted (msg : String)
deriving Repr, DecidableEq

/-- The `POST /api/employees` handler.  Concurrency is modelled by two
database snapshots: `chk` is the state the pre-check `SELECT` runs against,
`st` the state the `INSERT` runs against; a sequential execution has
`chk = st`.  Control flow follows the source: collected validation errors
first (400), then the duplicate-email pre-check (409), then the insert,
whose `ER_DUP_ENTRY` rejection is caught and mapped to 409 and whose other
failures map to 500. -/
def createEmployeeRacy (chk st : DbState) (now : Nat) (p : EmployeePayload) :
    DbState × CreateResult :=
  if validateEmployee p ≠ [] then (st, .validationFailed (validateEmployee p))
  else
    let q := sanitizePayload p
    if emailTaken chk.employees q.email then
      (st, .conflict "Employee with this email already exists")
    else
      match dbInsert st now q with
      | .ok (st2, newId) => (st2, .created (mkCreated newId q))
      | .error e =>
        if e.code == "ER_DUP_ENTRY" then
          (st, .conflict "Employee with this email already exists")
        else (st, .internalFailure "Failed to create employee")

/-- Sequential execution of the create handler: pre-check and insert see the
same state. -/
def createEmployee (st : DbState) (now : Nat) (p : EmployeePayload) :
    DbState × CreateResult :=
  createEmployeeRacy st st now p

/-- The `PUT /api/employees/:id` handler, with the same two-snapshot model of
concurrency.  Control flow follows the source: collected validation errors
first (400), then the existence check (404), then the other-row
duplicate-email pre-check (409), then the update, whose `ER_DUP_ENTRY`
rejection is caught and mapped to 409 and whose other failures map to 500. -/
def updateEmployeeRacy (chk st : DbState) (now : Nat) (id : Nat)
    (p : EmployeePayload) : DbState × UpdateResult :=
  if validateEmployee p ≠ [] then (st, .validationFailed (validateEmployee p))
  else
    let q := sanitizePayload p
    match findEmp chk.employees id with
    | none => (st, .notFound "Employee not found")
    | some _ =>
      if emailTakenByOther chk.employees q.email id then
        (st, .conflict "Another employee with this email already exists")
      else
        match dbUpdate st now id q with
        | .ok st2 => (st2, .updated "Employee updated successfully")
        | .error e =>
          if e.code == "ER_DUP_ENTRY" then
            (st, .conflict "Another employee with this email already exists")
          else (st, .internalFailure "Failed to update employee")

/-- Sequential execution of the update handler. -/
def updateEmployee (st : DbState) (now : Nat) (id : Nat) (p : EmployeePayload) :
    DbState × UpdateResult :=
  updateEmployeeRacy st st now id p

/-- The `DELETE /api/employees/:id` handler: existence check (404), then
`DELETE FROM employees WHERE id = ?`. -/
def deleteEmployee (st : DbState) (id : Nat) : DbState × DeleteResult :=
  match findEmp st.employees id with
  | none => (st, .notFound "Employee not found")
  | some _ =>
    ({ st with employees := st.employees.filter (fun e => e.id != id) },
     .deleted "Employee deleted successfully")

/-! ## Auth gate (`authenticateToken` in `server.js`) -/

/-- The identity decoded from a verified JWT. -/
structure Claims where
  id : Nat
  username : String
deriving Repr, DecidableEq

/-- Bearer-token extraction `authHeader && authHeader.split(' ')[1]`: a
missing or empty (JavaScript-falsy) header yields no token; otherwise the
element at index 1 of the space-split of the header, which is missing when
the header has no space and JavaScript-falsy when it is the empty string. -/
def extractToken (authHeader : Option String) : Option String :=
  match authHeader with
  | none => none
  | some h =>
    if h = "" then none
    else
      match (splitCharsOn ' ' h.data).get? 1 with
      | none => none
      | some t => if t = [] then none else some (String.mk t)

/-- Outcome of the `authenticateToken` middleware: 401 without a token, 403
when `jwt.verify` reports an error, otherwise the request proceeds annotated
with the decoded identity. -/
inductive AuthResult where
  | unauthorized (msg : String)
  | forbidden (msg : String)
  | authorized (user : Claims)
deriving Repr, DecidableEq

/-- The `authenticateToken` middleware.  `verify` abstracts
`jwt.verify(token, JWT_SECRET, ...)`: `none` when the library reports the
token invalid, malformed or expired. -/
def authenticateToken (verify : String → Option Claims)
    (authHeader : Option String) : AuthResult :=
  match extractToken authHeader with
  | none => .unauthorized "Access token required"
  | some tok =>
    match verify tok with
    | none => .forbidden "Invalid or expired token"
    | some user => .authorized user

/-- A protected route as Express composes it: the middleware either
short-circuits with its error response (leaving the state untouched, the
handler never runs) or passes the annotated request to the handler. -/
def runProtected {α : Type} (verify : String → Option Claims)
    (authHeader : Option String) (st : α)
    (handler : Claims → α → α × (Nat × String)) : α × (Nat × String) :=
  match authenticateToken verify authHeader with
  | .unauthorized m => (st, (401, m))
  | .forbidden m => (st, (403, m))
  | .authorized u => handler u st

/-! ## Login (`POST /api/auth/login` in `server.js`) -/

/-- A row of the `admins` table. -/
structure Admin where
  id : Nat
  username : String
  password : String
deriving Repr, DecidableEq

/-- `SELECT * FROM admins WHERE username = ?`, first row. -/
def findAdmin (admins : List Admin) (u : String) : Option Admin :=
  admins.find? (fun a => a.username == u)

/-- Outcome of a login request: 400 bad input, 429 rate-limited, 401 bad
credentials, 200 with token and identity, or 500. -/
inductive LoginResult where
  | badInput (details : List String)
  | tooMany (msg : String)
  | unauthorized (msg : String)
  | success (token : String) (id : Nat) (username : String)
  | internalFailure (msg : String)
deriving Repr, DecidableEq

/-- HTTP status of a login outcome. -/
def LoginResult.statusCode : LoginResult → Nat
  | .badInput _ => 400
  | .tooMany _ => 429
  | .unauthorized _ => 401
  | .success _ _ _ => 200
  | .internalFailure _ => 500

/-- The login route handler (after the rate limiter): input validation
(username trimmed then required, password required), the admin lookup, and
the single combined credential check
`if (!admin || !bcrypt.compareSync(password, admin.password))` answering
401 `Invalid credentials` in both failure cases.  `checkPw` abstracts
`bcrypt.compareSync` and `sign` abstracts `jwt.sign`. -/
def loginHandler (checkPw : String → String → Bool)
    (sign : Nat → String → String) (admins : List Admin)
    (username password : String) : LoginResult :=
  let u := trimStr username
  if u.length < 1 ∨ password.length < 1 then
    .badInput ((if u.length < 1 then ["Username is required"] else []) ++
               (if password.length < 1 then ["Password is required"] else []))
  else
    match findAdmin admins u with
    | none => .unauthorized "Invalid credentials"
    | some admin =>
      if checkPw password admin.password then
        .success (sign admin.id admin.username) admin.id admin.username
      else .unauthorized "Invalid credentials"

/-! ## Rate limiter (`authLimiter` in `server.js`) -/

/-- `windowMs: 15 * 60 * 1000` — the 15-minute window, in milliseconds. -/
def windowMs : Nat := 15 * 60 * 1000

/-- `max: 5` — at most 5 requests per window per network origin. -/
def maxHits : Nat := 5

/-- The limiter's per-origin record: how many hits were counted in the
current window and when the window resets. -/
structure LimiterState where
  hits : Nat
  resetTime : Nat
deriving Repr, DecidableEq

/-- A fresh origin: nothing counted, window expired so the first hit starts
a new one. -/
def limiterInit : LimiterState := { hits := 0, resetTime := 0 }

/-- One hit of the express-rate-limit store at time `now`: an expired window
is restarted, the hit is counted unconditionally, and the request is allowed
exactly when the count stays within `maxHits`. -/
def rateLimitHit (st : LimiterState) (now : Nat) : LimiterState × Bool :=
  let st1 := if st.resetTime ≤ now then { hits := 0, resetTime := now + windowMs }
             else st
  let st2 := { st1 with hits := st1.hits + 1 }
  (st2, st2.hits ≤ maxHits)

/-- A full login request from one origin: the `authLimiter` middleware runs
first and answers 429 with its configured message when the window is
exhausted, regardless of the credentials; otherwise the login handler runs. -/
def loginRequest (checkPw : String → String → Bool)
    (sign : Nat → String → String) (admins : List Admin)
    (st : LimiterState) (now : Nat) (username password : String) :
    LimiterState × LoginResult :=
  let (st1, allowed) := rateLimitHit st now
  if allowed then (st1, loginHandler checkPw sign admins username password)
  else (st1, .tooMany "Too many authentication attempts, please try again later.")

/-- Run a sequence of login attempts `(time, username, password)` from one
origin, returning the final limiter state. -/
def runAttempts (checkPw : String → String → Bool)
    (sign : Nat → String → String) (admins : List Admin) :
    LimiterState → List (Nat × String × String) → LimiterState
  | st, [] => st
  | st, (t, u, p) :: rest =>
    runAttempts checkPw sign admins
      (loginRequest checkPw sign admins st t u p).1 rest

/-! ## The email-uniqueness invariant -/

theorem charShift : ∀ n, n < 91 → 65 ≤ n → (Char.ofNat (n + 32)).toNat = n + 32 := by
  decide

theorem lowChar_idem (c : Char) : lowChar (lowChar c) = lowChar c := by
  by_cases h : 65 ≤ c.toNat ∧ c.toNat ≤ 90
  · have h1 : (Char.ofNat (c.toNat + 32)).toNat = c.toNat + 32 :=
      charShift c.toNat (by omega) h.1
    unfold lowChar
    rw [if_pos h, if_neg (by rw [h1]; omega)]
  · unfold lowChar
    rw [if_neg h, if_neg h]

theorem lowStr_idem (s : String) : lowStr (lowStr s) = lowStr s := by
  unfold lowStr
  congr 1
  show (s.data.map lowChar).map lowChar = s.data.map lowChar
  rw [List.map_map]
  have hc : lowChar ∘ lowChar = lowChar := funext lowChar_idem
  rw [hc]

/-- No two rows hold the same email after case folding. -/
def EmailsUnique (st : DbState) : Prop :=
  st.employees.Pairwise (fun a b => lowStr a.email ≠ lowStr b.email)

/-- No two rows share a primary key. -/
def IdsUnique (st : DbState) : Prop :=
  st.employees.Pairwise (fun a b => a.id ≠ b.id)

/-- Every primary key is below the `AUTO_INCREMENT` counter. -/
def IdsBounded (st : DbState) : Prop :=
  ∀ e ∈ st.employees, e.id < st.nextId

/-- The storage-layer invariant maintained by the schema. -/
def DbInv (st : DbState) : Prop :=
  EmailsUnique st ∧ IdsUnique st ∧ IdsBounded st

/-- The states the employee collection can reach: any interleaving of
create, update and delete requests, where the pre-check snapshot `chk` of a
racy request is arbitrary (it may be stale relative to the state the write
runs against). -/
inductive Reachable : DbState → Prop where
  | init : Reachable dbInit
  | create (chk : DbState) (now : Nat) (p : EmployeePayload) {st : DbState} :
      Reachable st → Reachable (createEmployeeRacy chk st now p).1
  | update (chk : DbState) (now id : Nat) (p : EmployeePayload) {st : DbState} :
      Reachable st → Reachable (updateEmployeeRacy chk st now id p).1
  | del (id : Nat) {st : DbState} :
      Reachable st → Reachable (deleteEmployee st id).1

theorem emailTaken_eq_false {db : List Employee} {email : String}
    (h : emailTaken db email = false) :
    ∀ e ∈ db, lowStr e.email ≠ lowStr email := by
  intro e he heq
  have : emailTaken db email = true := by
    unfold emailTaken
    rw [List.any_eq_true]
    exact ⟨e, he, by unfold emailEq; rw [heq]; exact beq_self_eq_true _⟩
  rw [h] at this
  exact Bool.false_ne_true this

theorem emailTakenByOther_eq_false {db : List Employee} {email : String} {id : Nat}
    (h : emailTakenByOther db email id = false) :
    ∀ e ∈ db, e.id ≠ id → lowStr e.email ≠ lowStr email := by
  intro e he hid heq
  have : emailTakenByOther db email id = true := by
    unfold emailTakenByOther
    rw [List.any_eq_true]
    refine ⟨e, he, ?_⟩
    unfold emailEq
    rw [heq]
    simp [hid]
  rw [h] at this
  exact Bool.false_ne_true this

theorem insert_inv {st : DbState} (now : Nat) (q : EmployeePayload)
    (h : DbInv st) (hno : emailTaken st.employees q.email = false) :
    DbInv { employees := st.employees ++ [mkEmployee st.nextId now q]
            nextId := st.nextId + 1 } := by
  obtain ⟨hem, hid, hbd⟩ := h
  refine ⟨?_, ?_, ?_⟩
  · unfold EmailsUnique at hem ⊢
    rw [List.pairwise_append]
    refine ⟨hem, List.pairwise_singleton _ _, ?_⟩
    intro a ha b hb
    rw [List.mem_singleton] at hb
    subst hb
    exact emailTaken_eq_false hno a ha
  · unfold IdsUnique at hid ⊢
    rw [List.pairwise_append]
    refine ⟨hid, List.pairwise_singleton _ _, ?_⟩
    intro a ha b hb
    rw [List.mem_singleton] at hb
    subst hb
    exact Nat.ne_of_lt (hbd a ha)
  · intro e he
    rw [List.mem_append, List.mem_singleton] at he
    rcases he with he | he
    · exact Nat.lt_succ_of_lt (hbd e he)
    · subst he
      exact Nat.lt_succ_self _

theorem overwrite_id (now : Nat) (q : EmployeePayload) (id : Nat) (e : Employee) :
    (if e.id == id then overwriteRow now q e else e).id = e.id := by
  split <;> rfl

theorem pairwise_emails_update (l : List Employee) (id now : Nat) (q : EmployeePayload)
    (hids : l.Pairwise (fun a b => a.id ≠ b.id))
    (hem : l.Pairwise (fun a b => lowStr a.email ≠ lowStr b.email))
    (hother : ∀ e ∈ l, e.id ≠ id → lowStr e.email ≠ lowStr q.email) :
    (l.map fun e => if e.id == id then overwriteRow now q e else e).Pairwise
      (fun a b => lowStr a.email ≠ lowStr b.email) := by
  induction l with
  | nil => exact List.Pairwise.nil
  | cons a l ih =>
    rw [List.pairwise_cons] at hids hem
    rw [List.map_cons, List.pairwise_cons]
    constructor
    · intro b hb
      obtain ⟨b0, hb0, rfl⟩ := List.mem_map.1 hb
      by_cases hA : a.id = id
      · have hb0id : b0.id ≠ id := fun hmm => hids.1 b0 hb0 (hA.trans hmm.symm)
        have hne : lowStr b0.email ≠ lowStr q.email :=
          hother b0 (List.mem_cons_of_mem a hb0) hb0id
        simp only [hA, beq_self_eq_true, if_true, beq_iff_eq, hb0id, if_false]
        exact fun hmm => hne hmm.symm
      · by_cases hB : b0.id = id
        · have hne : lowStr a.email ≠ lowStr q.email :=
            hother a (List.mem_cons_self a l) hA
          simp only [beq_iff_eq, hA, if_false, hB, if_true]
          exact hne
        · simp only [beq_iff_eq, hA, hB, if_false]
          exact hem.1 b0 hb0
    · exact ih hids.2 hem.2 (fun e he hne => hother e (List.mem_cons_of_mem a he) hne)

theorem update_inv {st : DbState} (now id : Nat) (q : EmployeePayload)
    (h : DbInv st) (hno : emailTakenByOther st.employees q.email id = false) :
    DbInv { st with
            employees := st.employees.map fun e =>
              if e.id == id then overwriteRow now q e else e } := by
  obtain ⟨hem, hid, hbd⟩ := h
  refine ⟨?_, ?_, ?_⟩
  · exact pairwise_emails_update st.employees id now q hid hem
      (emailTakenByOther_eq_false hno)
  · unfold IdsUnique at hid ⊢
    rw [List.pairwise_map]
    exact hid.imp (fun {a b} hab => by
      rw [overwrite_id, overwrite_id]; exact hab)
  · intro e he
    obtain ⟨e0, he0, rfl⟩ := List.mem_map.1 he
    rw [overwrite_id]
    exact hbd e0 he0

theorem delete_inv {st : DbState} (id : Nat) (h : DbInv st) :
    DbInv { st with employees := st.employees.filter (fun e => e.id != id) } := by
  obtain ⟨hem, hid, hbd⟩ := h
  refine ⟨?_, ?_, ?_⟩
  · exact hem.sublist (List.filter_sublist _)
  · exact hid.sublist (List.filter_sublist _)
  · intro e he
    exact hbd e (List.mem_of_mem_filter he)

theorem createRacy_inv (chk : DbState) {st : DbState} (now : Nat)
    (p : EmployeePayload) (h : DbInv st) :
    DbInv (createEmployeeRacy chk st now p).1 := by
  unfold createEmployeeRacy
  split
  · exact h
  · dsimp only
    split
    · exact h
    · by_cases hdup : emailTaken st.employees (sanitizePayload p).email = true
      · simp only [dbInsert, hdup, if_true]
        exact h
      · rw [Bool.not_eq_true] at hdup
        simp only [dbInsert, hdup, Bool.false_eq_true, if_false]
        exact insert_inv now (sanitizePayload p) h hdup

theorem updateRacy_inv (chk : DbState) {st : DbState} (now id : Nat)
    (p : EmployeePayload) (h : DbInv st) :
    DbInv (updateEmployeeRacy chk st now id p).1 := by
  unfold updateEmployeeRacy
  split
  · exact h
  · dsimp only
    split
    · exact h
    · split
      · exact h
      · by_cases hdup : emailTakenByOther st.employees (sanitizePayload p).email id = true
        · simp only [dbUpdate, hdup, if_true]
          exact h
        · rw [Bool.not_eq_true] at hdup
          simp only [dbUpdate, hdup, Bool.false_eq_true, if_false]
          exact update_inv now id (sanitizePayload p) h hdup

theorem deleteEmployee_inv {st : DbState} (id : Nat) (h : DbInv st) :
    DbInv (deleteEmployee st id).1 := by
  unfold deleteEmployee
  split
  · exact h
  · exact delete_inv id h

theorem reachable_inv {st : DbState} (h : Reachable st) : DbInv st := by
  induction h with
  | init =>
    exact ⟨List.Pairwise.nil, List.Pairwise.nil, fun e he => absurd he (List.not_mem_nil e)⟩
  | create chk now p _ ih => exact createRacy_inv chk now p ih
  | update chk now id p _ ih => exact updateRacy_inv chk now id p ih
  | del id _ ih => exact deleteEmployee_inv id ih

/-! ## Sample data for concrete instantiations -/

/-- A valid create payload with email `a@x.com`. -/
def vp : EmployeePayload :=
  { first_name := "John", last_name := "Doe", email := "a@x.com",
    position := "Dev", department := "IT", salary := 50000,
    hire_date := "2024-01-15", phone := none, address := none }

/-- The same candidate with the email differing only by letter case. -/
def vpUpper : EmployeePayload := { vp with email := "A@X.com" }

/-- A valid payload with a different email. -/
def vpB : EmployeePayload := { vp with email := "b@x.com" }

/-- An invalid payload: empty first name. -/
def badP : EmployeePayload := { vp with first_name := "" }

/-- The row produced by creating `vp` into the fresh database at time 0. -/
def emp0 : Employee := mkEmployee 1 0 (sanitizePayload vp)

/-- A database holding exactly the employee with email `a@x.com`. -/
def st0 : DbState := { employees := [emp0], nextId := 2 }

/-! ## Claims -/

/-- Claim C1: in every reachable state of the employee collection no two
records share the same email after case-insensitive normalization, and a
create request (passing the shared validation) whose candidate email equals
a stored employee's email up to letter case fails with Conflict (409) and
inserts nothing. -/
theorem C1_email_uniqueness :
    (∀ st : DbState, Reachable st → EmailsUnique st) ∧
    (∀ (st : DbState) (now : Nat) (p : EmployeePayload) (e : Employee),
      validateEmployee p = [] → e ∈ st.employees →
      lowStr e.email = lowStr p.email →
      createEmployee st now p =
        (st, .conflict "Employee with this email already exists")) := by
  constructor
  · intro st h
    exact (reachable_inv h).1
  · intro st now p e hval he heq
    unfold createEmployee createEmployeeRacy
    rw [if_neg (fun hne => hne hval)]
    have htaken : emailTaken st.employees (sanitizePayload p).email = true := by
      unfold emailTaken
      rw [List.any_eq_true]
      refine ⟨e, he, ?_⟩
      show (lowStr e.email == lowStr (sanitizePayload p).email) = true
      show (lowStr e.email == lowStr (lowStr p.email)) = true
      rw [lowStr_idem, heq]
      exact beq_self_eq_true _
    simp only [htaken, if_true]

/-- Concrete instantiation of `C1_email_uniqueness`: the fresh database
satisfies the invariant, and creating `A@X.com` over stored `a@x.com` is
rejected with Conflict, leaving the state unchanged. -/
theorem C1_email_uniqueness_witness :
    EmailsUnique dbInit ∧
    createEmployee st0 7 vpUpper =
      (st0, CreateResult.conflict "Employee with this email already exists") :=
  ⟨C1_email_uniqueness.1 dbInit Reachable.init,
   C1_email_uniqueness.2 st0 7 vpUpper emp0 (by decide) (by decide) (by decide)⟩

/-- Claim C2: a login whose username matches no administrator and a login
whose username matches but whose password fails the hash check produce the
same response: status 401 with message `Invalid credentials`. -/
theorem C2_login_failures_identical
    (checkPw : String → String → Bool) (sign : Nat → String → String)
    (admins : List Admin) (u1 p1 u2 p2 : String) (a : Admin)
    (hu1 : 1 ≤ (trimStr u1).length) (hp1 : 1 ≤ p1.length)
    (hu2 : 1 ≤ (trimStr u2).length) (hp2 : 1 ≤ p2.length)
    (hnone : findAdmin admins (trimStr u1) = none)
    (hsome : findAdmin admins (trimStr u2) = some a)
    (hbad : checkPw p2 a.password = false) :
    loginHandler checkPw sign admins u1 p1 = .unauthorized "Invalid credentials" ∧
    loginHandler checkPw sign admins u2 p2 = .unauthorized "Invalid credentials" ∧
    loginHandler checkPw sign admins u1 p1 = loginHandler checkPw sign admins u2 p2 ∧
    (loginHandler checkPw sign admins u1 p1).statusCode = 401 ∧
    (loginHandler checkPw sign admins u2 p2).statusCode = 401 := by
  have r1 : loginHandler checkPw sign admins u1 p1 = .unauthorized "Invalid credentials" := by
    unfold loginHandler
    rw [if_neg (by omega)]
    rw [hnone]
  have r2 : loginHandler checkPw sign admins u2 p2 = .unauthorized "Invalid credentials" := by
    unfold loginHandler
    rw [if_neg (by omega)]
    rw [hsome]
    simp only [hbad, Bool.false_eq_true, if_false]
  exact ⟨r1, r2, r1.trans r2.symm, by rw [r1]; rfl, by rw [r2]; rfl⟩

/-- Concrete instantiation of `C2_login_failures_identical`: unknown user
`bob` and known user `admin` with a failing password check get the same
401 `Invalid credentials` response. -/
theorem C2_login_failures_identical_witness :
    loginHandler (fun _ _ => false) (fun _ _ => "tok")
        [{ id := 1, username := "admin", password := "digest" }] "bob" "pw" =
      LoginResult.unauthorized "Invalid credentials" ∧
    loginHandler (fun _ _ => false) (fun _ _ => "tok")
        [{ id := 1, username := "admin", password := "digest" }] "admin" "pw" =
      LoginResult.unauthorized "Invalid credentials" := by
  have h := C2_login_failures_identical (fun _ _ => false) (fun _ _ => "tok")
    [{ id := 1, username := "admin", password := "digest" }] "bob" "pw" "admin" "pw"
    { id := 1, username := "admin", password := "digest" }
    (by decide) (by decide) (by decide) (by decide) (by decide) (by decide) rfl
  exact ⟨h.1, h.2.1⟩

/-- Claim C3 counterexample: an update with a nonexistent id (the fresh
database has no employee 1) and an invalid payload (empty first name) is
answered with 400 ValidationFailed, not 404 NotFound, so the claimed
NotFound-before-validation ordering fails on the code. -/
theorem C3_counterexample :
    findEmp dbInit.employees 1 = none ∧
    validateEmployee badP ≠ [] ∧
    (updateEmployee dbInit 0 1 badP).2 =
      UpdateResult.validationFailed
        ["First name is required and must be less than 50 characters"] ∧
    (updateEmployee dbInit 0 1 badP).2 ≠ UpdateResult.notFound "Employee not found" := by
  refine ⟨rfl, by decide, by decide, by decide⟩

/-- Claim C3 as amended: the shared validation pass runs before the
existence check, so an update whose payload fails validation is answered
with ValidationFailed even when the id does not exist, and NotFound is
returned (with the state unchanged) exactly for updates whose payload
passes validation and whose id matches no record. -/
theorem C3_validation_before_existence :
    (∀ (st : DbState) (now id : Nat) (p : EmployeePayload),
      validateEmployee p ≠ [] →
      updateEmployee st now id p = (st, .validationFailed (validateEmployee p))) ∧
    (∀ (st : DbState) (now id : Nat) (p : EmployeePayload),
      validateEmployee p = [] → findEmp st.employees id = none →
      updateEmployee st now id p = (st, .notFound "Employee not found")) := by
  constructor
  · intro st now id p hbad
    unfold updateEmployee updateEmployeeRacy
    rw [if_pos hbad]
  · intro st now id p hval hnone
    unfold updateEmployee updateEmployeeRacy
    rw [if_neg (fun hne => hne hval)]
    rw [hnone]

/-- Concrete instantiation of `C3_validation_before_existence` on both
branches. -/
theorem C3_validation_before_existence_witness :
    updateEmployee dbInit 0 1 badP =
      (dbInit, UpdateResult.validationFailed
        ["First name is required and must be less than 50 characters"]) ∧
    updateEmployee dbInit 0 1 vp = (dbInit, UpdateResult.notFound "Employee not found") := by
  constructor
  · have h := C3_validation_before_existence.1 dbInit 0 1 badP (by decide)
    rw [h]
    rfl
  · exact C3_validation_before_existence.2 dbInit 0 1 vp (by decide) rfl

/-- Claim C4 counterexample: a valid create on the fresh database succeeds
with the assigned id, but the returned record is `{ id, ...body }`, so its
created-at and updated-at are not populated (the response carries no
timestamp fields), contradicting the claim that both are populated in the
returned record. -/
theorem C4_counterexample :
    (createEmployee dbInit 5 vp).2 =
      CreateResult.created (mkCreated 1 (sanitizePayload vp)) ∧
    (mkCreated 1 (sanitizePayload vp)).created_at = none ∧
    (mkCreated 1 (sanitizePayload vp)).updated_at = none := by
  refine ⟨by decide, rfl, rfl⟩

/-- Claim C4 as amended: for every valid create payload whose email is not
yet used, the create succeeds (201) and the returned record's fields equal
the sanitized input with the assigned id populated; the stored row gets
created-at and updated-at set to the current time, but the response object
omits both timestamps. -/
theorem C4_create_success (st : DbState) (now : Nat) (p : EmployeePayload)
    (hval : validateEmployee p = [])
    (hfree : emailTaken st.employees (sanitizePayload p).email = false) :
    createEmployee st now p =
      ({ employees := st.employees ++ [mkEmployee st.nextId now (sanitizePayload p)]
         nextId := st.nextId + 1 },
       .created (mkCreated st.nextId (sanitizePayload p))) ∧
    (mkCreated st.nextId (sanitizePayload p)).id = st.nextId ∧
    (mkCreated st.nextId (sanitizePayload p)).first_name = (sanitizePayload p).first_name ∧
    (mkCreated st.nextId (sanitizePayload p)).last_name = (sanitizePayload p).last_name ∧
    (mkCreated st.nextId (sanitizePayload p)).email = (sanitizePayload p).email ∧
    (mkCreated st.nextId (sanitizePayload p)).position = (sanitizePayload p).position ∧
    (mkCreated st.nextId (sanitizePayload p)).department = (sanitizePayload p).department ∧
    (mkCreated st.nextId (sanitizePayload p)).salary = (sanitizePayload p).salary ∧
    (mkCreated st.nextId (sanitizePayload p)).hire_date = (sanitizePayload p).hire_date ∧
    (mkCreated st.nextId (sanitizePayload p)).phone = (sanitizePayload p).phone ∧
    (mkCreated st.nextId (sanitizePayload p)).address = (sanitizePayload p).address ∧
    (mkEmployee st.nextId now (sanitizePayload p)).created_at = now ∧
    (mkEmployee st.nextId now (sanitizePayload p)).updated_at = now ∧
    (mkCreated st.nextId (sanitizePayload p)).created_at = none ∧
    (mkCreated st.nextId (sanitizePayload p)).updated_at = none := by
  refine ⟨?_, rfl, rfl, rfl, rfl, rfl, rfl, rfl, rfl, rfl, rfl, rfl, rfl, rfl, rfl⟩
  unfold createEmployee createEmployeeRacy
  rw [if_neg (fun hne => hne hval)]
  simp only [hfree, Bool.false_eq_true, if_false, dbInsert]

/-- Concrete instantiation of `C4_create_success`: creating `vp` in the
fresh database yields id 1, a stored row timestamped 5, and a response
without timestamps. -/
theorem C4_create_success_witness :
    createEmployee dbInit 5 vp =
      ({ employees := [mkEmployee 1 5 (sanitizePayload vp)], nextId := 2 },
       CreateResult.created (mkCreated 1 (sanitizePayload vp))) ∧
    (mkCreated 1 (sanitizePayload vp)).created_at = none := by
  have h := C4_create_success dbInit 5 vp (by decide) (by decide)
  exact ⟨h.1, h.2.2.2.2.2.2.2.2.2.2.2.2.2.1⟩

/-- Claim C5: when the pre-check passes on its (possibly stale) snapshot but
the write itself is rejected by the storage layer's email-uniqueness
constraint (`ER_DUP_ENTRY`), both the create and the update handler answer
409 Conflict, not 500 Internal, and leave the state unchanged. -/
theorem C5_duplicate_key_conflict :
    (∀ (chk st : DbState) (now : Nat) (p : EmployeePayload),
      validateEmployee p = [] →
      emailTaken chk.employees (sanitizePayload p).email = false →
      emailTaken st.employees (sanitizePayload p).email = true →
      createEmployeeRacy chk st now p =
        (st, .conflict "Employee with this email already exists")) ∧
    (∀ (chk st : DbState) (now id : Nat) (p : EmployeePayload) (a : Employee),
      validateEmployee p = [] →
      findEmp chk.employees id = some a →
      emailTakenByOther chk.employees (sanitizePayload p).email id = false →
      emailTakenByOther st.employees (sanitizePayload p).email id = true →
      updateEmployeeRacy chk st now id p =
        (st, .conflict "Another employee with this email already exists")) := by
  constructor
  · intro chk st now p hval hchk hdup
    unfold createEmployeeRacy
    rw [if_neg (fun hne => hne hval)]
    simp only [hchk, Bool.false_eq_true, if_false, dbInsert, hdup, if_true,
      beq_self_eq_true]
  · intro chk st now id p a hval hfind hchk hdup
    unfold updateEmployeeRacy
    rw [if_neg (fun hne => hne hval)]
    simp only [hfind, hchk, Bool.false_eq_true, if_false, dbUpdate, hdup, if_true,
      beq_self_eq_true]

/-- A state in which a second row (id 2) already holds `a@x.com`. -/
def stDup : DbState := { employees := [mkEmployee 2 0 (sanitizePayload vp)], nextId := 3 }

/-- Concrete instantiation of `C5_duplicate_key_conflict`: a create whose
pre-check ran against the empty snapshot but whose insert hits a state
already holding `a@x.com` gets 409, and an update of employee 1 whose
pre-check saw no other holder but whose write hits a state where id 2 holds
`a@x.com` gets 409. -/
theorem C5_duplicate_key_conflict_witness :
    createEmployeeRacy dbInit st0 9 vp =
      (st0, CreateResult.conflict "Employee with this email already exists") ∧
    updateEmployeeRacy st0 stDup 9 1 vp =
      (stDup, UpdateResult.conflict "Another employee with this email already exists") :=
  ⟨C5_duplicate_key_conflict.1 dbInit st0 9 vp (by decide) (by decide) (by decide),
   C5_duplicate_key_conflict.2 st0 stDup 9 1 vp emp0 (by decide) (by decide)
     (by decide) (by decide)⟩

theorem loginRequest_state_fresh (cp : String → String → Bool)
    (sg : Nat → String → String) (ad : List Admin) (st : LimiterState)
    (now : Nat) (u p : String) (h : st.resetTime ≤ now) :
    (loginRequest cp sg ad st now u p).1 =
      { hits := 1, resetTime := now + windowMs } := by
  unfold loginRequest rateLimitHit
  rw [if_pos h]
  dsimp only
  split <;> rfl

theorem loginRequest_state_inside (cp : String → String → Bool)
    (sg : Nat → String → String) (ad : List Admin) (st : LimiterState)
    (now : Nat) (u p : String) (h : now < st.resetTime) :
    (loginRequest cp sg ad st now u p).1 =
      { hits := st.hits + 1, resetTime := st.resetTime } := by
  unfold loginRequest rateLimitHit
  rw [if_neg (by omega)]
  dsimp only
  split <;> rfl

theorem runAttempts_window (cp : String → String → Bool)
    (sg : Nat → String → String) (ad : List Admin) :
    ∀ (rest : List (Nat × String × String)) (st : LimiterState),
      (∀ a ∈ rest, a.1 < st.resetTime) →
      runAttempts cp sg ad st rest =
        { hits := st.hits + rest.length, resetTime := st.resetTime } := by
  intro rest
  induction rest with
  | nil => intro st _; simp [runAttempts]
  | cons a rest ih =>
    intro st h
    obtain ⟨t, u, p⟩ := a
    have hlt : t < st.resetTime := h (t, u, p) (List.mem_cons_self _ _)
    simp only [runAttempts]
    rw [loginRequest_state_inside cp sg ad st t u p hlt]
    rw [ih { hits := st.hits + 1, resetTime := st.resetTime }
      (fun b hb => h b (List.mem_cons_of_mem _ hb))]
    simp only [List.length_cons]
    congr 1
    omega

/-- Claim C6: once 5 login attempts from one origin were counted in the
current 15-minute window, every further attempt inside the window is
answered 429 TooManyRequests regardless of the credentials; in particular,
after 5 attempts starting a fresh window, a 6th attempt within 15 minutes of
the first is rejected even if its credentials are correct. -/
theorem C6_rate_limit (cp : String → String → Bool)
    (sg : Nat → String → String) (ad : List Admin) :
    (∀ (st : LimiterState) (t : Nat) (u p : String),
      maxHits ≤ st.hits → t < st.resetTime →
      (loginRequest cp sg ad st t u p).2 =
        .tooMany "Too many authentication attempts, please try again later.") ∧
    (∀ (t0 : Nat) (u0 p0 : String) (rest : List (Nat × String × String))
       (t : Nat) (u p : String),
      rest.length = 4 → (∀ a ∈ rest, a.1 < t0 + windowMs) → t < t0 + windowMs →
      (loginRequest cp sg ad
        (runAttempts cp sg ad limiterInit ((t0, u0, p0) :: rest)) t u p).2 =
        .tooMany "Too many authentication attempts, please try again later.") := by
  have part1 : ∀ (st : LimiterState) (t : Nat) (u p : String),
      maxHits ≤ st.hits → t < st.resetTime →
      (loginRequest cp sg ad st t u p).2 =
        .tooMany "Too many authentication attempts, please try again later." := by
    intro st t u p hmax hin
    unfold loginRequest rateLimitHit
    rw [if_neg (by omega)]
    dsimp only
    rw [if_neg (by simp only [decide_eq_true_eq]; omega)]
  refine ⟨part1, ?_⟩
  intro t0 u0 p0 rest t u p hlen hin ht
  have hstep : runAttempts cp sg ad limiterInit ((t0, u0, p0) :: rest) =
      { hits := 1 + rest.length, resetTime := t0 + windowMs } := by
    simp only [runAttempts]
    rw [loginRequest_state_fresh cp sg ad limiterInit t0 u0 p0 (Nat.zero_le t0)]
    rw [runAttempts_window cp sg ad rest { hits := 1, resetTime := t0 + windowMs } hin]
  rw [hstep]
  exact part1 { hits := 1 + rest.length, resetTime := t0 + windowMs } t u p
    (by rw [hlen]; show maxHits ≤ 1 + 4; decide) ht

/-- Concrete instantiation of `C6_rate_limit`: six attempts at milliseconds
0..5 from one origin, with a password check that accepts everything (so the
6th attempt's credentials are correct), still end in 429 for the 6th. -/
theorem C6_rate_limit_witness :
    (loginRequest (fun _ _ => true) (fun _ _ => "tok")
      [{ id := 1, username := "admin", password := "digest" }]
      (runAttempts (fun _ _ => true) (fun _ _ => "tok")
        [{ id := 1, username := "admin", password := "digest" }]
        limiterInit
        ((0, "admin", "admin123") ::
          [(1, "admin", "admin123"), (2, "admin", "admin123"),
           (3, "admin", "admin123"), (4, "admin", "admin123")]))
      5 "admin" "admin123").2 =
    LoginResult.tooMany "Too many authentication attempts, please try again later." :=
  (C6_rate_limit (fun _ _ => true) (fun _ _ => "tok")
    [{ id := 1, username := "admin", password := "digest" }]).2
    0 "admin" "admin123"
    [(1, "admin", "admin123"), (2, "admin", "admin123"),
     (3, "admin", "admin123"), (4, "admin", "admin123")]
    5 "admin" "admin123" rfl (by decide) (by decide)

/-- Claim C7: the gate answers 401 `Access token required` exactly when no
bearer token is extracted from the authorization header, and 403
`Invalid or expired token` exactly when a token is present but `jwt.verify`
rejects it; the two kinds are distinct, and on either failure the route
handler never runs and the state is untouched. -/
theorem C7_auth_gate (verify : String → Option Claims) (h : Option String) :
    (authenticateToken verify h = .unauthorized "Access token required" ↔
      extractToken h = none) ∧
    (∀ m, authenticateToken verify h = .forbidden m ↔
      (m = "Invalid or expired token" ∧
       ∃ t, extractToken h = some t ∧ verify t = none)) ∧
    (∀ m1 m2, AuthResult.unauthorized m1 ≠ AuthResult.forbidden m2) ∧
    (∀ (α : Type) (st : α) (handler : Claims → α → α × (Nat × String)),
      extractToken h = none →
      runProtected verify h st handler = (st, (401, "Access token required"))) ∧
    (∀ (α : Type) (st : α) (handler : Claims → α → α × (Nat × String)) (t : String),
      extractToken h = some t → verify t = none →
      runProtected verify h st handler = (st, (403, "Invalid or expired token"))) := by
  refine ⟨?_, ?_, ?_, ?_, ?_⟩
  · cases hext : extractToken h with
    | none => unfold authenticateToken; rw [hext]; simp
    | some t =>
      unfold authenticateToken
      rw [hext]
      cases hv : verify t <;> simp [hv]
  · intro m
    cases hext : extractToken h with
    | none => unfold authenticateToken; rw [hext]; simp
    | some t =>
      unfold authenticateToken
      rw [hext]
      dsimp only
      cases hv : verify t with
      | none =>
        constructor
        · intro he
          injection he with he
          exact ⟨he.symm, t, rfl, hv⟩
        · rintro ⟨hm, _t2, _ht2, _hv2⟩
          rw [hm]
      | some u => simp [hv]
  · intro m1 m2 hmm
    exact AuthResult.noConfusion hmm
  · intro α st handler hext
    unfold runProtected authenticateToken
    rw [hext]
  · intro α st handler t hext hv
    unfold runProtected authenticateToken
    rw [hext]
    dsimp only
    rw [hv]

/-- Concrete instantiation of `C7_auth_gate`: a missing header gives 401 and
skips the handler; a present header whose token fails verification gives 403
and skips the handler. -/
theorem C7_auth_gate_witness :
    authenticateToken (fun _ => none) none = AuthResult.unauthorized "Access token required" ∧
    runProtected (fun _ => none) none (0 : Nat) (fun _ st => (st + 1, (200, "ok"))) =
      (0, (401, "Access token required")) ∧
    runProtected (fun _ => none) (some "Bearer abc") (0 : Nat)
      (fun _ st => (st + 1, (200, "ok"))) = (0, (403, "Invalid or expired token")) := by
  refine ⟨?_, ?_, ?_⟩
  · exact (C7_auth_gate (fun _ => none) none).1.mpr rfl
  · exact (C7_auth_gate (fun _ => none) none).2.2.2.1 Nat 0 (fun _ st => (st + 1, (200, "ok"))) rfl
  · exact (C7_auth_gate (fun _ => none) (some "Bearer abc")).2.2.2.2 Nat 0
      (fun _ st => (st + 1, (200, "ok"))) "abc" (by decide) rfl

/-- Claim C8: updating an existing employee to an email held, after
normalization, by a different employee fails with 409 Conflict and leaves
the whole stored state (in particular the updated employee's record)
unchanged. -/
theorem C8_update_email_conflict (st : DbState) (now aid : Nat)
    (p : EmployeePayload) (a b : Employee)
    (hval : validateEmployee p = [])
    (ha : findEmp st.employees aid = some a)
    (hb : b ∈ st.employees) (hbid : b.id ≠ aid)
    (hemail : lowStr b.email = lowStr p.email) :
    updateEmployee st now aid p =
      (st, .conflict "Another employee with this email already exists") := by
  unfold updateEmployee updateEmployeeRacy
  rw [if_neg (fun hne => hne hval)]
  dsimp only
  rw [ha]
  have htaken : emailTakenByOther st.employees (sanitizePayload p).email aid = true := by
    unfold emailTakenByOther
    rw [List.any_eq_true]
    refine ⟨b, hb, ?_⟩
    rw [Bool.and_eq_true]
    constructor
    · show (lowStr b.email == lowStr (lowStr p.email)) = true
      rw [lowStr_idem, hemail]
      exact beq_self_eq_true _
    · simp [hbid]
  simp only [htaken, if_true]

/-- The employee with id 1 and email `b@x.com`. -/
def empA : Employee := mkEmployee 1 0 (sanitizePayload vpB)

/-- The employee with id 2 and email `a@x.com`. -/
def empB : Employee := mkEmployee 2 0 (sanitizePayload vp)

/-- A database holding `empA` and `empB`. -/
def stAB : DbState := { employees := [empA, empB], nextId := 3 }

/-- Concrete instantiation of `C8_update_email_conflict`: updating employee
1 to employee 2's email `a@x.com` is answered 409 and changes nothing. -/
theorem C8_update_email_conflict_witness :
    updateEmployee stAB 9 1 vp =
      (stAB, UpdateResult.conflict "Another employee with this email already exists") :=
  C8_update_email_conflict stAB 9 1 vp empA empB (by decide) (by decide)
    (by decide) (by decide) (by decide)

theorem mem_guard (x m : String) (c : Prop) [Decidable c] :
    x ∈ (if c then ([] : List String) else [m]) ↔ ¬c ∧ x = m := by
  by_cases h : c
  · simp [h]
  · simp [h]

theorem phone_msg_mem (p : EmployeePayload) (s : String) (hp : p.phone = some s) :
    ("Valid phone number required" ∈ validateEmployee p ↔ phoneOk s = false) := by
  unfold validateEmployee
  rw [hp]
  cases had : p.address with
  | none => simp [mem_guard]
  | some ad => simp [mem_guard]

/-- Claim C9: for a payload carrying a (nonempty) phone value, the phone
validation accepts exactly the strings all of whose characters lie in the
lenient class of digits, whitespace, dashes, parentheses and plus signs: no
phone violation is reported iff every character is in the class. -/
theorem C9_phone_lenient (p : EmployeePayload) (s : String)
    (hp : p.phone = some s) (hne : s.data ≠ []) :
    ("Valid phone number required" ∉ validateEmployee p ↔
      ∀ c ∈ s.data, phoneCharOk c = true) := by
  have hmem := phone_msg_mem p s hp
  constructor
  · intro hnot c hc
    have hph : phoneOk s = true := by
      cases hb : phoneOk s with
      | false => exact absurd (hmem.mpr hb) hnot
      | true => rfl
    have hall := (Bool.and_eq_true _ _ ▸ hph).2
    exact List.all_eq_true.mp hall c hc
  · intro hall hmem2
    have hf := hmem.mp hmem2
    have hph : phoneOk s = true := by
      unfold phoneOk
      rw [Bool.and_eq_true]
      constructor
      · cases hd : s.data with
        | nil => exact absurd hd hne
        | cons a l => rfl
      · exact List.all_eq_true.mpr hall
    rw [hph] at hf
    exact absurd hf (by decide)

/-- A valid payload carrying the phone value `(123) 456-7890`. -/
def vpPhone : EmployeePayload := { vp with phone := some "(123) 456-7890" }

/-- Concrete instantiation of `C9_phone_lenient`: the phone value
`(123) 456-7890`, built only from the lenient class, passes validation. -/
theorem C9_phone_lenient_witness :
    "Valid phone number required" ∉ validateEmployee vpPhone :=
  (C9_phone_lenient vpPhone "(123) 456-7890" rfl (by decide)).mpr (by decide)

theorem splitCharsOn_no_sep (sep : Char) (l : List Char)
    (h : ∀ c ∈ l, c ≠ sep) : splitCharsOn sep l = [l] := by
  induction l with
  | nil => rfl
  | cons c rest ih =>
    simp only [splitCharsOn]
    rw [ih (fun x hx => h x (List.mem_cons_of_mem c hx))]
    show (if c = sep then [] :: rest :: [] else (c :: rest) :: []) = [c :: rest]
    rw [if_neg (h c (List.mem_cons_self c rest))]

/-- Claim C10: a present authorization header containing no space character
yields no bearer token (only the segment after the first space is ever taken
as the token), so the gate answers 401 Unauthorized, not 403 Forbidden. -/
theorem C10_no_space_header (verify : String → Option Claims) (h : String)
    (hns : ∀ c ∈ h.data, c ≠ ' ') :
    authenticateToken verify (some h) = .unauthorized "Access token required" := by
  unfold authenticateToken extractToken
  dsimp only
  by_cases h0 : h = ""
  · rw [if_pos h0]
  · rw [if_neg h0]
    rw [splitCharsOn_no_sep ' ' h.data hns]
    rfl

/-- Concrete instantiation of `C10_no_space_header`: the header
`Bearertok123` (no space) gives 401 even though the verifier would have
rejected any extracted token with 403. -/
theorem C10_no_space_header_witness :
    authenticateToken (fun _ => none) (some "Bearertok123") =
      AuthResult.unauthorized "Access token required" :=
  C10_no_space_header (fun _ => none) "Bearertok123" (by decide)
